import Mathlib

/-!
Verification development for `scripts/produce.py` (Entropic-System).

The file shallowly embeds the batching / pooling / retry / metrics engine
of the producer script:

* `ProducerConfig`, `ProducerMetrics` — the two dataclasses.
* `MessageBatch` with `add` / `should_flush` / `flush` / `size` / `clear`.
* `KafkaProducerPool` — the connection pool.  Broker connections are opaque
  handles modelled as natural-number ids; creating a `KafkaProducer` is an
  external effect whose outcome (success / raised error) is supplied by an
  oracle argument.  `get_producer` embeds the context manager
  (popleft-or-create, run the body, `finally:` append the connection back).
* `EnhancedKafkaProducer.send` / `.flush` / `.print_metrics` / `.close`.
  Wall-clock readings (`time.time()`) are passed in as a rational `now`.
  The broker interaction of one flush attempt is abstracted by an oracle
  `Nat → AttemptRaw` giving, for each 0-based attempt index, either the
  per-future outcomes of `future.get` or the exception raised while
  acquiring / submitting on the connection.

Python exception flow is embedded state-passing-style: a computation that
can raise returns its (persisted) state together with an `Option PyExc`
(`none` = returned normally, `some e` = exception `e` escaped).  The
`except` clauses of the source become matches on that option.
-/

/-- Exception classes relevant to the script: `KafkaTimeoutError`
(a subclass of `KafkaError`), any other `KafkaError`, and any other
Python `Exception`. -/
inductive PyExc : Type
  | kafkaTimeout
  | kafka
  | other
deriving DecidableEq, Repr

/-- Whether the exception is caught by an `except KafkaError` clause
(`KafkaTimeoutError` is a subclass of `KafkaError`). -/
def PyExc.isKafkaError : PyExc → Bool
  | .kafkaTimeout => true
  | .kafka => true
  | .other => false

instance instDecEqExcept {ε α : Type} [DecidableEq ε] [DecidableEq α] :
    DecidableEq (Except ε α) := fun x y =>
  match x, y with
  | .ok a, .ok b => decidable_of_iff (a = b) (by simp)
  | .ok _, .error _ => isFalse (by simp)
  | .error _, .ok _ => isFalse (by simp)
  | .error e, .error f => decidable_of_iff (e = f) (by simp)

/-- Opaque broker-connection handle (`KafkaProducer` instance). -/
abbrev Producer := Nat

/-- The `ProducerConfig` dataclass (logging fields omitted: the logging
backend is an external collaborator). -/
structure ProducerConfig where
  bootstrap_servers : List String
  topic : String
  batch_size : Nat := 100
  batch_timeout_ms : Nat := 5000
  max_retries : Nat := 3
  retry_backoff_ms : Nat := 100
  connection_pool_size : Nat := 5
  acks : String := "all"
  compression_type : String := "snappy"
deriving DecidableEq, Repr

/-- The `ProducerMetrics` dataclass.  Timestamps are rationals (seconds,
as returned by `time.time()`). -/
structure ProducerMetrics where
  total_messages : Nat := 0
  successful_messages : Nat := 0
  failed_messages : Nat := 0
  total_bytes : Nat := 0
  start_time : ℚ := 0
  end_time : ℚ := 0
  batch_count : Nat := 0
  error_count : Nat := 0
  retry_count : Nat := 0
  connection_errors : Nat := 0
  timeout_errors : Nat := 0
deriving DecidableEq, Repr

/-- `MessageBatch.__init__`: `messages` is the internal list of
`(topic, message_bytes)` pairs, `last_flush_time` the timestamp of the
previous drain (or construction). -/
structure MessageBatch where
  max_size : Nat := 100
  timeout_ms : Nat := 5000
  messages : List (String × List Nat) := []
  last_flush_time : ℚ
deriving DecidableEq, Repr

/-- `MessageBatch.should_flush`: size check first, then the age check,
both OR'd via early returns. -/
def MessageBatch.should_flush (b : MessageBatch) (now : ℚ) : Bool :=
  if b.messages.length ≥ b.max_size then true
  else if (now - b.last_flush_time) * 1000 ≥ (b.timeout_ms : ℚ) then true
  else false

/-- `MessageBatch.add`: append, then report `should_flush()`. -/
def MessageBatch.add (b : MessageBatch) (topic : String) (message : List Nat)
    (now : ℚ) : MessageBatch × Bool :=
  let b' := { b with messages := b.messages ++ [(topic, message)] }
  (b', b'.should_flush now)

/-- `MessageBatch.flush`: return a copy of `messages`, clear the internal
list, reset `last_flush_time` to `now`. -/
def MessageBatch.flush (b : MessageBatch) (now : ℚ) :
    List (String × List Nat) × MessageBatch :=
  (b.messages, { b with messages := [], last_flush_time := now })

/-- `MessageBatch.size`. -/
def MessageBatch.size (b : MessageBatch) : Nat :=
  b.messages.length

/-- `MessageBatch.clear`. -/
def MessageBatch.clear (b : MessageBatch) (now : ℚ) : MessageBatch :=
  { b with messages := [], last_flush_time := now }

/-- Pool state: target size, the idle deque (front = left end, i.e. next
`popleft` victim), and a counter supplying ids for freshly created
connections.  `bootstrap_servers`, `producer_kwargs`, the unused `lock`
placeholder and the logger are collaborator data carried by the Python
object but irrelevant to pool behaviour. -/
structure KafkaProducerPool where
  pool_size : Nat := 5
  pool : List Producer := []
  next_id : Nat := 0
deriving DecidableEq, Repr

/-- Result of `KafkaProducerPool._initialize_pool`: the outcome (the idle
deque, or the propagated exception), plus the trace of connections created
and of connections closed during initialization. -/
structure InitResult where
  result : Except PyExc (List Producer)
  created : List Producer
  closed : List Producer
deriving DecidableEq, Repr

/-- Loop body of `_initialize_pool`: `connect i = none` means the `i`-th
`KafkaProducer(...)` construction succeeds (yielding connection id `i`),
`some e` that it raises `e`.  Returns the outcome together with the list
of connections created so far. -/
def KafkaProducerPool.initLoop (connect : Nat → Option PyExc) :
    Nat → Nat → List Producer → Except PyExc (List Producer) × List Producer
  | _, 0, acc => (.ok acc, acc)
  | i, r + 1, acc =>
    match connect i with
    | some e => (.error e, acc)
    | none => KafkaProducerPool.initLoop connect (i + 1) r (acc ++ [i])

/-- `KafkaProducerPool._initialize_pool`: create `pool_size` connections in
a loop; on the first failure the `except` clause logs and re-raises.  The
handler contains no `close()` call, so `closed` is empty on every path. -/
def KafkaProducerPool.initialize_pool (pool_size : Nat)
    (connect : Nat → Option PyExc) : InitResult :=
  let lr := KafkaProducerPool.initLoop connect 0 pool_size []
  { result := lr.1, created := lr.2, closed := [] }

/-- Acquisition phase of `get_producer`: popleft from the idle deque if
non-empty, otherwise create a fresh transient connection.  The boolean
records whether a new connection was created. -/
def KafkaProducerPool.acquireStep (ps : KafkaProducerPool) :
    Producer × KafkaProducerPool × Bool :=
  match ps.pool with
  | p :: rest => (p, { ps with pool := rest }, false)
  | [] => (ps.next_id, { ps with next_id := ps.next_id + 1 }, true)

/-- Release phase of `get_producer` (its `finally:` clause): append the
connection to the right end of the idle deque, unconditionally. -/
def KafkaProducerPool.releaseStep (ps : KafkaProducerPool) (p : Producer) :
    KafkaProducerPool :=
  { ps with pool := ps.pool ++ [p] }

/-- The `get_producer` context manager run against a body: popleft or
create (creation outcome given by `create`; only reachable when the deque
is empty), run the body on the connection, and in `finally:` append the
connection back — whether the body returned or raised.  When creation
itself raises, `producer` is still `None`, so `finally:` appends
nothing and the exception propagates. -/
def KafkaProducerPool.get_producer {α : Type} (ps : KafkaProducerPool)
    (create : Option PyExc) (body : Producer → Except PyExc α) :
    KafkaProducerPool × Except PyExc α :=
  match ps.pool with
  | p :: rest => ({ ps with pool := rest ++ [p] }, body p)
  | [] =>
    match create with
    | some e => (ps, Except.error e)
    | none =>
      ({ ps with pool := [ps.next_id], next_id := ps.next_id + 1 },
       body ps.next_id)

/-- `KafkaProducerPool.close`: drain the idle deque, closing each
connection (close failures are logged, not raised).  Returns the list of
connections that were closed. -/
def KafkaProducerPool.close (ps : KafkaProducerPool) :
    KafkaProducerPool × List Producer :=
  ({ ps with pool := [] }, ps.pool)

/-- Iterated acquisition (no interleaved release, all creations
succeeding): returns the final pool state and how many new connections
were created. -/
def KafkaProducerPool.acquireMany :
    KafkaProducerPool → Nat → KafkaProducerPool × Nat
  | ps, 0 => (ps, 0)
  | ps, k + 1 =>
    let st := KafkaProducerPool.acquireStep ps
    let rest := KafkaProducerPool.acquireMany st.2.1 k
    (rest.1, (if st.2.2 then 1 else 0) + rest.2)

/-- Iterated release. -/
def KafkaProducerPool.releaseMany (ps : KafkaProducerPool)
    (l : List Producer) : KafkaProducerPool :=
  l.foldl KafkaProducerPool.releaseStep ps

/-- A message to `send`, modelled by the outcome of serializing it
(`json.dumps(message).encode("utf-8")` for dicts, `str(message).encode`
otherwise): either the serialized bytes or the exception raised. -/
structure Message where
  serialized : Except PyExc (List Nat)
deriving DecidableEq, Repr

/-- Mutable state of an `EnhancedKafkaProducer` relevant to
`send` / `flush`: its metrics and its batch accumulator.  The pool is
threaded separately (its behaviour during a flush attempt is verified on
`KafkaProducerPool.get_producer` directly; inside `flush` the whole
broker interaction of an attempt is abstracted by an oracle). -/
structure ProducerState where
  metrics : ProducerMetrics
  batch : MessageBatch
deriving DecidableEq, Repr

/-- Outcome of `future.get(timeout=10)` for one message of an attempt:
delivery metadata, or the exception it raised. -/
inductive MsgResult : Type
  | success
  | excTimeout
  | excKafka
  | excOther
deriving DecidableEq, Repr

/-- Raw behaviour of one flush attempt, as supplied by the environment:
either acquisition and submission succeeded and each `future.get` had the
given outcome, or acquiring / using the connection raised `e` before any
future was awaited. -/
inductive AttemptRaw : Type
  | acquired (futures : List MsgResult)
  | raiseOnAcquire (e : PyExc)
deriving DecidableEq, Repr

/-- Whether the attempt fails with a connection-level `KafkaError`
(raised while acquiring or submitting, i.e. caught by the outer
`except KafkaError` of `flush`). -/
def AttemptRaw.isConnFailure : AttemptRaw → Bool
  | .raiseOnAcquire e => e.isKafkaError
  | .acquired _ => false

/-- The inner `for topic, future in futures` loop of `flush`: per outcome,
update the counters; `KafkaTimeoutError` and `KafkaError` are caught by
the inner `except` clauses, any other exception escapes the loop (with
all updates made so far persisted). -/
def runFutures (m : ProducerMetrics) (fc : Nat) :
    List MsgResult → ProducerMetrics × Nat × Option PyExc
  | [] => (m, fc, none)
  | .success :: rest =>
    runFutures
      { m with successful_messages := m.successful_messages + 1 }
      (fc + 1) rest
  | .excTimeout :: rest =>
    runFutures
      { m with timeout_errors := m.timeout_errors + 1,
               failed_messages := m.failed_messages + 1 }
      fc rest
  | .excKafka :: rest =>
    runFutures
      { m with failed_messages := m.failed_messages + 1,
               error_count := m.error_count + 1 }
      fc rest
  | .excOther :: _ => (m, fc, some .other)

/-- One whole `try:` body of a flush attempt: if acquisition or submission
raised, nothing was counted and the exception escapes; otherwise the
futures are awaited one by one. -/
def attemptRun (m : ProducerMetrics) (fc : Nat) :
    AttemptRaw → ProducerMetrics × Nat × Option PyExc
  | .raiseOnAcquire e => (m, fc, some e)
  | .acquired futures => runFutures m fc futures

/-- The `for attempt in range(max_retries)` loop of `flush`.  `attempt` is
the current 0-based index, `remaining` the number of loop iterations left.
On a normal attempt the loop `break`s.  On a `KafkaError` the
connection-error counter is bumped; with attempts remaining the code
sleeps `retry_backoff_ms * 2 ** attempt / 1000` seconds (recorded in the
returned sleep trace) and bumps the retry counter, else it logs and gives
up.  On any other exception the error counter is bumped and the loop
`break`s. -/
def EnhancedKafkaProducer.flushLoop (cfg : ProducerConfig)
    (oracle : Nat → AttemptRaw) :
    ProducerMetrics → Nat → Nat → Nat → ProducerMetrics × Nat × List ℚ
  | m, fc, _, 0 => (m, fc, [])
  | m, fc, attempt, r + 1 =>
    match attemptRun m fc (oracle attempt) with
    | (m1, fc1, none) => (m1, fc1, [])
    | (m1, fc1, some e) =>
      if e.isKafkaError then
        let m2 := { m1 with connection_errors := m1.connection_errors + 1 }
        if attempt < cfg.max_retries - 1 then
          let wait : ℚ := (cfg.retry_backoff_ms : ℚ) * 2 ^ attempt / 1000
          let m3 := { m2 with retry_count := m2.retry_count + 1 }
          let lr := EnhancedKafkaProducer.flushLoop cfg oracle m3 fc1 (attempt + 1) r
          (lr.1, lr.2.1, wait :: lr.2.2)
        else (m2, fc1, [])
      else ({ m1 with error_count := m1.error_count + 1 }, fc1, [])

/-- Result of `EnhancedKafkaProducer.flush`: the new producer state, the
returned `flushed_count`, the trace of `time.sleep` durations (seconds),
and the exception escaping the call (`none` = returned normally). -/
structure FlushResult where
  state : ProducerState
  count : Nat
  sleeps : List ℚ
  exc : Option PyExc
deriving DecidableEq, Repr

/-- `EnhancedKafkaProducer.flush`: drain the batch; if empty return 0,
else bump the batch counter once and run the retry loop. -/
def EnhancedKafkaProducer.flush (cfg : ProducerConfig)
    (oracle : Nat → AttemptRaw) (s : ProducerState) (now : ℚ) : FlushResult :=
  let pr := MessageBatch.flush s.batch now
  if pr.1.isEmpty then
    { state := { s with batch := pr.2 }, count := 0, sleeps := [], exc := none }
  else
    let m0 := { s.metrics with batch_count := s.metrics.batch_count + 1 }
    let lr := EnhancedKafkaProducer.flushLoop cfg oracle m0 0 0 cfg.max_retries
    { state := { metrics := lr.1, batch := pr.2 }, count := lr.2.1,
      sleeps := lr.2.2, exc := none }

/-- `topic = topic or self.config.topic` (`None` and the empty string are
falsy). -/
def resolveTopic (cfg : ProducerConfig) (topic : Option String) : String :=
  match topic with
  | some t => if t = "" then cfg.topic else t
  | none => cfg.topic

/-- Result of `EnhancedKafkaProducer.send`. -/
structure SendResult where
  state : ProducerState
  accepted : Bool
  sleeps : List ℚ
  exc : Option PyExc
deriving DecidableEq, Repr

/-- `EnhancedKafkaProducer.send`: resolve the topic, bump the total
counter (before the `try:` block), then serialize, bump the byte counter,
add to the batch and, if flush is due, flush inline; the `except
Exception` clause bumps the failed / error counters on whatever state the
raise left and returns `False`. -/
def EnhancedKafkaProducer.send (cfg : ProducerConfig)
    (oracle : Nat → AttemptRaw) (msg : Message) (topic : Option String)
    (s : ProducerState) (now : ℚ) : SendResult :=
  let m0 := { s.metrics with total_messages := s.metrics.total_messages + 1 }
  match msg.serialized with
  | .error _ =>
    { state := { s with metrics :=
        { m0 with failed_messages := m0.failed_messages + 1,
                  error_count := m0.error_count + 1 } },
      accepted := false, sleeps := [], exc := none }
  | .ok bytes =>
    let m1 := { m0 with total_bytes := m0.total_bytes + bytes.length }
    let pr := MessageBatch.add s.batch (resolveTopic cfg topic) bytes now
    let s1 : ProducerState := { metrics := m1, batch := pr.1 }
    if pr.2 then
      let fr := EnhancedKafkaProducer.flush cfg oracle s1 now
      match fr.exc with
      | some _ =>
        { state := { fr.state with metrics :=
            { fr.state.metrics with
                failed_messages := fr.state.metrics.failed_messages + 1,
                error_count := fr.state.metrics.error_count + 1 } },
          accepted := false, sleeps := fr.sleeps, exc := none }
      | none =>
        { state := fr.state, accepted := true, sleeps := fr.sleeps, exc := none }
    else
      { state := s1, accepted := true, sleeps := [], exc := none }

/-- `EnhancedKafkaProducer.print_metrics`: sets `end_time` to the current
time on every call, then logs the derived dictionary (derived values are
computed on read, never stored). -/
def EnhancedKafkaProducer.print_metrics (s : ProducerState) (now : ℚ) :
    ProducerState :=
  { s with metrics := { s.metrics with end_time := now } }

/-- Result of `EnhancedKafkaProducer.close`. -/
structure CloseResult where
  state : ProducerState
  pool : KafkaProducerPool
  exc : Option PyExc
deriving DecidableEq, Repr

/-- `EnhancedKafkaProducer.close`: flush once more, close the pool, print
the metrics; the surrounding `except Exception` clause logs, so nothing
escapes. -/
def EnhancedKafkaProducer.close (cfg : ProducerConfig)
    (oracle : Nat → AttemptRaw) (s : ProducerState) (ps : KafkaProducerPool)
    (now : ℚ) : CloseResult :=
  let fr := EnhancedKafkaProducer.flush cfg oracle s now
  match fr.exc with
  | some _ => { state := fr.state, pool := ps, exc := none }
  | none =>
    { state := EnhancedKafkaProducer.print_metrics fr.state now,
      pool := (KafkaProducerPool.close ps).1, exc := none }

/-- Two successive `close()` calls on the same producer. -/
def closeTwice (cfg : ProducerConfig) (o1 o2 : Nat → AttemptRaw)
    (s : ProducerState) (ps : KafkaProducerPool) (t1 t2 : ℚ) : CloseResult :=
  EnhancedKafkaProducer.close cfg o2
    (EnhancedKafkaProducer.close cfg o1 s ps t1).state
    (EnhancedKafkaProducer.close cfg o1 s ps t1).pool t2

/-! ### Helper lemmas -/

/-- A `flush` call never lets an exception escape (both return paths of
the embedding carry `exc := none`, mirroring the catch-all `except`
clauses of the source). -/
theorem flush_exc_eq_none (cfg : ProducerConfig) (oracle : Nat → AttemptRaw)
    (s : ProducerState) (now : ℚ) :
    (EnhancedKafkaProducer.flush cfg oracle s now).exc = none := by
  cases hm : s.batch.messages with
  | nil => simp [EnhancedKafkaProducer.flush, MessageBatch.flush, hm]
  | cons x xs => simp [EnhancedKafkaProducer.flush, MessageBatch.flush, hm]

/-- After any `flush` call the accumulator is empty with its age timer
reset to `now`. -/
theorem flush_state_batch (cfg : ProducerConfig) (oracle : Nat → AttemptRaw)
    (s : ProducerState) (now : ℚ) :
    (EnhancedKafkaProducer.flush cfg oracle s now).state.batch =
      { s.batch with messages := [], last_flush_time := now } := by
  cases hm : s.batch.messages with
  | nil => simp [EnhancedKafkaProducer.flush, MessageBatch.flush, hm]
  | cons x xs => simp [EnhancedKafkaProducer.flush, MessageBatch.flush, hm]

/-- `flush` on an empty accumulator is a pure no-op apart from resetting
the age timer: it returns 0 without touching the metrics. -/
theorem flush_empty_batch (cfg : ProducerConfig) (oracle : Nat → AttemptRaw)
    (s : ProducerState) (now : ℚ) (h : s.batch.messages = []) :
    EnhancedKafkaProducer.flush cfg oracle s now =
      { state := { s with batch :=
          { s.batch with messages := [], last_flush_time := now } },
        count := 0, sleeps := [], exc := none } := by
  unfold EnhancedKafkaProducer.flush
  simp [MessageBatch.flush, h]

/-! ### Claim theorems -/

/-- C6.  `should_flush()` is true exactly when `size() ≥ maxSize` or the
elapsed time since the last drain (in milliseconds) is at least
`maxAgeMs`; either condition alone triggers it. -/
theorem should_flush_iff_spec (b : MessageBatch) (now : ℚ) :
    b.should_flush now = true ↔
      b.max_size ≤ b.size ∨
        (b.timeout_ms : ℚ) ≤ (now - b.last_flush_time) * 1000 := by
  unfold MessageBatch.should_flush MessageBatch.size
  split_ifs with h1 h2
  · simp [h1]
  · simp [h2]
  · simp [h1, h2]

/-- C7.  `drain()` returns exactly the pending entries in insertion order
(`add` appends at the right end), leaves the internal sequence empty (an
immediately following `size()` returns 0), and resets the age timer to
the drain time. -/
theorem drain_snapshot_spec (b : MessageBatch) (t : String) (msg : List Nat)
    (now now' : ℚ) :
    (b.flush now).1 = b.messages ∧
    (b.flush now).2.messages = [] ∧
    (b.flush now).2.size = 0 ∧
    (b.flush now).2.last_flush_time = now ∧
    (b.add t msg now').1.messages = b.messages ++ [(t, msg)] :=
  ⟨rfl, rfl, rfl, rfl, rfl⟩

/-- C5.  No exception escapes `send` or `flush`: for every message,
topic, producer state and attempt behaviour (including per-message
timeouts, broker send errors, connection-level errors on every attempt
and unexpected errors inside an attempt) both calls return normally. -/
theorem send_flush_never_raise (cfg : ProducerConfig)
    (oracle : Nat → AttemptRaw) (msg : Message) (topic : Option String)
    (s s' : ProducerState) (now now' : ℚ) :
    (EnhancedKafkaProducer.send cfg oracle msg topic s now).exc = none ∧
    (EnhancedKafkaProducer.flush cfg oracle s' now').exc = none := by
  constructor
  · cases h : msg.serialized with
    | error e => simp [EnhancedKafkaProducer.send, h]
    | ok bytes =>
      simp only [EnhancedKafkaProducer.send, h]
      split
      · rw [flush_exc_eq_none]
      · rfl
  · exact flush_exc_eq_none cfg oracle s' now'

/-- C10.  With `max_retries = 0`, `flush` on a non-empty batch drains the
accumulator and increments the batch counter, but runs zero attempts
(the result does not depend on the attempt behaviour), changes no other
counter, sleeps never, and returns 0 — every drained entry is dropped. -/
theorem flush_zero_max_retries_spec (cfg : ProducerConfig)
    (oracle : Nat → AttemptRaw) (s : ProducerState) (now : ℚ)
    (h0 : cfg.max_retries = 0) (h2 : s.batch.messages ≠ []) :
    EnhancedKafkaProducer.flush cfg oracle s now =
      { state :=
          { metrics := { s.metrics with
              batch_count := s.metrics.batch_count + 1 },
            batch := { s.batch with
              messages := [], last_flush_time := now } },
        count := 0, sleeps := [], exc := none } := by
  cases hm : s.batch.messages with
  | nil => exact absurd hm h2
  | cons x xs =>
    unfold EnhancedKafkaProducer.flush
    rw [h0]
    simp [MessageBatch.flush, hm, EnhancedKafkaProducer.flushLoop]

/-- Witness for C10: a concrete one-entry batch with `max_retries = 0`. -/
theorem flush_zero_max_retries_spec_witness :
    EnhancedKafkaProducer.flush
        { bootstrap_servers := [], topic := "t", max_retries := 0 }
        (fun _ => AttemptRaw.acquired [])
        { metrics := {},
          batch := { messages := [("t", [1])], last_flush_time := 0 } } 5 =
      { state := { metrics := { batch_count := 1 },
                   batch := { last_flush_time := 5 } },
        count := 0, sleeps := [], exc := none } := by
  exact flush_zero_max_retries_spec
    { bootstrap_servers := [], topic := "t", max_retries := 0 }
    (fun _ => AttemptRaw.acquired [])
    { metrics := {},
      batch := { messages := [("t", [1])], last_flush_time := 0 } } 5
    rfl (by decide)

/-- C1 counterexample: on a serialization failure the total-message
counter is NOT left unchanged — `send` increments it before attempting
serialization (source line 379, before the `try:` block). -/
theorem send_serfail_total_counted_cex :
    (EnhancedKafkaProducer.send { bootstrap_servers := [], topic := "t" }
        (fun _ => AttemptRaw.acquired [])
        { serialized := Except.error PyExc.other } none
        { metrics := {}, batch := { last_flush_time := 0 } }
        0).state.metrics.total_messages ≠
      ({ metrics := {}, batch := { last_flush_time := 0 } } :
        ProducerState).metrics.total_messages := by
  decide

/-- C1 (amended).  On a serialization failure `send` returns `false`,
raises nothing, increments the failed-message counter, the error counter
AND the total-message counter by exactly 1 each, and leaves the
accumulator and the total-bytes counter unchanged. -/
theorem send_serialization_failure_spec (cfg : ProducerConfig)
    (oracle : Nat → AttemptRaw) (msg : Message) (topic : Option String)
    (s : ProducerState) (now : ℚ) (e : PyExc)
    (h : msg.serialized = Except.error e) :
    EnhancedKafkaProducer.send cfg oracle msg topic s now =
      { state := { s with metrics := { s.metrics with
            total_messages := s.metrics.total_messages + 1,
            failed_messages := s.metrics.failed_messages + 1,
            error_count := s.metrics.error_count + 1 } },
        accepted := false, sleeps := [], exc := none } := by
  unfold EnhancedKafkaProducer.send
  rw [h]

/-- Witness for the amended C1 at a concrete non-serializable message. -/
theorem send_serialization_failure_spec_witness :
    EnhancedKafkaProducer.send { bootstrap_servers := [], topic := "t" }
        (fun _ => AttemptRaw.acquired [])
        { serialized := Except.error PyExc.other } none
        { metrics := {}, batch := { last_flush_time := 0 } } 0 =
      { state :=
          { metrics :=
              { total_messages := 1, failed_messages := 1, error_count := 1 },
            batch := { last_flush_time := 0 } },
        accepted := false, sleeps := [], exc := none } := by
  exact send_serialization_failure_spec
    { bootstrap_servers := [], topic := "t" }
    (fun _ => AttemptRaw.acquired [])
    { serialized := Except.error PyExc.other } none
    { metrics := {}, batch := { last_flush_time := 0 } } 0 PyExc.other rfl

/-- A connection-failing attempt is a `raiseOnAcquire` of a `KafkaError`. -/
theorem isConnFailure_elim (x : AttemptRaw) (h : x.isConnFailure = true) :
    ∃ e, x = AttemptRaw.raiseOnAcquire e ∧ e.isKafkaError = true := by
  cases x with
  | acquired fs => simp [AttemptRaw.isConnFailure] at h
  | raiseOnAcquire e => exact ⟨e, rfl, h⟩

/-- Retry-loop behaviour when every attempt raises a connection-level
`KafkaError`: starting at attempt index `a` with `r + 1` iterations left
(and `a + (r + 1)` equal to the configured ceiling), the loop bumps the
connection-error counter once per iteration, the retry counter on all but
the last, sleeps `backoff * 2 ^ attemptIndex / 1000` seconds before each
retried attempt, and delivers nothing. -/
theorem flushLoop_all_conn_fail (cfg : ProducerConfig)
    (oracle : Nat → AttemptRaw)
    (hall : ∀ i, i < cfg.max_retries → (oracle i).isConnFailure = true) :
    ∀ (r a : Nat) (m : ProducerMetrics) (fc : Nat),
      a + (r + 1) = cfg.max_retries →
      EnhancedKafkaProducer.flushLoop cfg oracle m fc a (r + 1) =
        ({ m with connection_errors := m.connection_errors + (r + 1),
                  retry_count := m.retry_count + r }, fc,
         (List.range r).map
           (fun i => (cfg.retry_backoff_ms : ℚ) * 2 ^ (a + i) / 1000)) := by
  intro r
  induction r with
  | zero =>
    intro a m fc ha
    obtain ⟨e, he, hk⟩ := isConnFailure_elim _ (hall a (by omega))
    have hlt : ¬ (a < cfg.max_retries - 1) := by omega
    unfold EnhancedKafkaProducer.flushLoop
    rw [he]
    simp [attemptRun, hk, hlt]
  | succ r ih =>
    intro a m fc ha
    obtain ⟨e, he, hk⟩ := isConnFailure_elim _ (hall a (by omega))
    have hlt : a < cfg.max_retries - 1 := by omega
    unfold EnhancedKafkaProducer.flushLoop
    rw [he]
    simp only [attemptRun, hk, if_pos hlt, if_true]
    rw [ih (a + 1) _ fc (by omega)]
    refine Prod.ext ?_ (Prod.ext ?_ ?_)
    · simp [ProducerMetrics.mk.injEq]
      omega
    · rfl
    · simp only [List.range_succ_eq_map, List.map_cons, List.map_map,
        Function.comp, Nat.add_zero, Nat.add_succ, Nat.succ_add]
      rfl

/-- C2.  A flush of a non-empty batch with `max_retries ≥ 1` whose every
attempt fails with a connection-level `KafkaError` increments
`connection_errors` by exactly `max_retries`, increments `retry_count` by
exactly `max_retries - 1`, sleeps `retry_backoff_ms * 2 ^ attemptIndex`
milliseconds (i.e. `retry_backoff_ms * 2 ^ attemptIndex / 1000` seconds,
attempt index 0-based) before each retried attempt, and returns 0. -/
theorem flush_all_attempts_connection_fail (cfg : ProducerConfig)
    (oracle : Nat → AttemptRaw) (s : ProducerState) (now : ℚ)
    (h1 : 1 ≤ cfg.max_retries) (h2 : s.batch.messages ≠ [])
    (hall : ∀ i, i < cfg.max_retries → (oracle i).isConnFailure = true) :
    (EnhancedKafkaProducer.flush cfg oracle s now).state.metrics.connection_errors
        = s.metrics.connection_errors + cfg.max_retries ∧
    (EnhancedKafkaProducer.flush cfg oracle s now).state.metrics.retry_count
        = s.metrics.retry_count + (cfg.max_retries - 1) ∧
    (EnhancedKafkaProducer.flush cfg oracle s now).count = 0 ∧
    (EnhancedKafkaProducer.flush cfg oracle s now).sleeps =
      (List.range (cfg.max_retries - 1)).map
        (fun i => (cfg.retry_backoff_ms : ℚ) * 2 ^ i / 1000) := by
  cases hm : s.batch.messages with
  | nil => exact absurd hm h2
  | cons x xs =>
    have hloop := flushLoop_all_conn_fail cfg oracle hall (cfg.max_retries - 1) 0
      { s.metrics with batch_count := s.metrics.batch_count + 1 } 0 (by omega)
    rw [show cfg.max_retries - 1 + 1 = cfg.max_retries by omega] at hloop
    unfold EnhancedKafkaProducer.flush
    simp only [MessageBatch.flush, hm, List.isEmpty_cons, Bool.false_eq_true,
      if_false]
    rw [hloop]
    simp

/-- Witness for C2: two attempts, both raising a `KafkaError`, on a
one-entry batch with a 100 ms backoff base: two connection errors, one
retry, one sleep of 0.1 s, return value 0. -/
theorem flush_all_attempts_connection_fail_witness :
    (EnhancedKafkaProducer.flush
        { bootstrap_servers := [], topic := "t", max_retries := 2 }
        (fun _ => AttemptRaw.raiseOnAcquire PyExc.kafka)
        { metrics := {},
          batch := { messages := [("t", [1])], last_flush_time := 0 } }
        0).state.metrics.connection_errors = 2 ∧
    (EnhancedKafkaProducer.flush
        { bootstrap_servers := [], topic := "t", max_retries := 2 }
        (fun _ => AttemptRaw.raiseOnAcquire PyExc.kafka)
        { metrics := {},
          batch := { messages := [("t", [1])], last_flush_time := 0 } }
        0).state.metrics.retry_count = 1 ∧
    (EnhancedKafkaProducer.flush
        { bootstrap_servers := [], topic := "t", max_retries := 2 }
        (fun _ => AttemptRaw.raiseOnAcquire PyExc.kafka)
        { metrics := {},
          batch := { messages := [("t", [1])], last_flush_time := 0 } }
        0).count = 0 ∧
    (EnhancedKafkaProducer.flush
        { bootstrap_servers := [], topic := "t", max_retries := 2 }
        (fun _ => AttemptRaw.raiseOnAcquire PyExc.kafka)
        { metrics := {},
          batch := { messages := [("t", [1])], last_flush_time := 0 } }
        0).sleeps = [1 / 10] := by
  have h := flush_all_attempts_connection_fail
    { bootstrap_servers := [], topic := "t", max_retries := 2 }
    (fun _ => AttemptRaw.raiseOnAcquire PyExc.kafka)
    { metrics := {},
      batch := { messages := [("t", [1])], last_flush_time := 0 } }
    0 (by decide) (by decide) (fun i _ => rfl)
  refine ⟨?_, ?_, h.2.2.1, ?_⟩
  · rw [h.1]
    decide
  · rw [h.2.1]
    decide
  · rw [h.2.2.2]
    simp [List.range_succ]
    norm_num

/-- `close` always takes its normal path (the inner flush cannot raise):
it prints the metrics on the flushed state and drains the pool. -/
theorem close_eq (cfg : ProducerConfig) (oracle : Nat → AttemptRaw)
    (s : ProducerState) (ps : KafkaProducerPool) (now : ℚ) :
    EnhancedKafkaProducer.close cfg oracle s ps now =
      { state := EnhancedKafkaProducer.print_metrics
          (EnhancedKafkaProducer.flush cfg oracle s now).state now,
        pool := { ps with pool := [] }, exc := none } := by
  simp only [EnhancedKafkaProducer.close, flush_exc_eq_none,
    KafkaProducerPool.close]

/-- C3 counterexample: the end-time field is NOT set exactly once — the
second `close()` overwrites it with the later time, because
`print_metrics` assigns `end_time = time.time()` on every call. -/
theorem close_twice_end_time_overwritten_cex :
    (closeTwice { bootstrap_servers := [], topic := "t" }
        (fun _ => AttemptRaw.acquired []) (fun _ => AttemptRaw.acquired [])
        { metrics := {}, batch := { last_flush_time := 0 } }
        {} 1 2).state.metrics.end_time ≠
      (EnhancedKafkaProducer.close { bootstrap_servers := [], topic := "t" }
        (fun _ => AttemptRaw.acquired [])
        { metrics := {}, batch := { last_flush_time := 0 } }
        {} 1).state.metrics.end_time := by
  decide

/-- C3 (amended).  Calling `close()` twice raises no error; the second
close leaves every metrics counter exactly as the first close left it and
leaves the batch empty and the pool drained, but it overwrites the
end-time field with the second close's time (`print_metrics` sets
`end_time` on every call — end time is set at each close, not once). -/
theorem close_twice_spec (cfg : ProducerConfig) (o1 o2 : Nat → AttemptRaw)
    (s : ProducerState) (ps : KafkaProducerPool) (t1 t2 : ℚ) :
    (EnhancedKafkaProducer.close cfg o1 s ps t1).exc = none ∧
    (closeTwice cfg o1 o2 s ps t1 t2).exc = none ∧
    (closeTwice cfg o1 o2 s ps t1 t2).state.metrics =
      { (EnhancedKafkaProducer.close cfg o1 s ps t1).state.metrics with
          end_time := t2 } ∧
    (closeTwice cfg o1 o2 s ps t1 t2).state.batch.messages = [] ∧
    (closeTwice cfg o1 o2 s ps t1 t2).pool.pool = [] := by
  have hb : (EnhancedKafkaProducer.close cfg o1 s ps t1).state.batch.messages
      = [] := by
    rw [close_eq]
    simp [EnhancedKafkaProducer.print_metrics, flush_state_batch]
  unfold closeTwice
  rw [close_eq cfg o2 _ _ t2,
    flush_empty_batch cfg o2 _ t2 hb,
    close_eq cfg o1 s ps t1]
  simp [EnhancedKafkaProducer.print_metrics]

/-- Behaviour of the initialization loop up to and including the first
failing connection: with connections `i, i+1, …, i+d-1` succeeding and
connection `i+d` raising `e`, the loop propagates `e` and the created
connections are exactly the successful ones. -/
theorem initLoop_first_fail (connect : Nat → Option PyExc) (e : PyExc) :
    ∀ (d r i : Nat) (acc : List Producer), d < r →
      (∀ j, j < d → connect (i + j) = none) → connect (i + d) = some e →
      KafkaProducerPool.initLoop connect i r acc =
        (.error e, acc ++ (List.range d).map (fun j => i + j)) := by
  intro d
  induction d with
  | zero =>
    intro r i acc hr h0 hf
    cases r with
    | zero => omega
    | succ rr =>
      unfold KafkaProducerPool.initLoop
      rw [show i + 0 = i from rfl] at hf
      rw [hf]
      simp
  | succ d ih =>
    intro r i acc hr h0 hf
    cases r with
    | zero => omega
    | succ rr =>
      have hc : connect i = none := by
        have := h0 0 (by omega)
        simpa using this
      unfold KafkaProducerPool.initLoop
      rw [hc]
      rw [ih rr (i + 1) (acc ++ [i]) (by omega)
        (fun j hj => by
          have := h0 (j + 1) (by omega)
          rwa [show i + (j + 1) = i + 1 + j by omega] at this)
        (by rwa [show i + 1 + d = i + (d + 1) by omega])]
      simp only [List.range_succ_eq_map, List.map_cons, List.map_map,
        Function.comp, Nat.add_zero, List.append_assoc, List.cons_append,
        List.nil_append, Prod.mk.injEq, true_and]
      have hfun : (fun j => i + 1 + j) = ((fun j => i + j) ∘ Nat.succ) :=
        funext fun j => by
          simp only [Function.comp_apply]
          omega
      rw [hfun]

/-- C4 counterexample: with a 2-connection pool whose second connection
fails to establish, construction propagates the error and connection 0
was created, but nothing is closed before the failure is signalled — the
already-created connection is NOT torn down (the `except` clause of
`_initialize_pool` only logs and re-raises). -/
theorem initialize_pool_no_teardown_cex :
    (KafkaProducerPool.initialize_pool 2
        (fun i => if i = 0 then none else some PyExc.kafka)).result =
      Except.error PyExc.kafka ∧
    (KafkaProducerPool.initialize_pool 2
        (fun i => if i = 0 then none else some PyExc.kafka)).created = [0] ∧
    (KafkaProducerPool.initialize_pool 2
        (fun i => if i = 0 then none else some PyExc.kafka)).closed = [] := by
  decide

/-- C4 (amended).  If establishing the `k`-th of the `pool_size`
connections fails (after `k` successful ones), construction propagates
the underlying connection error, the created connections are exactly the
first `k`, and NO connection is closed before the failure is signalled —
the already-created connections are left open. -/
theorem initialize_pool_failure_spec (n k : Nat)
    (connect : Nat → Option PyExc) (e : PyExc) (hk : k < n)
    (hok : ∀ j, j < k → connect j = none) (hfail : connect k = some e) :
    (KafkaProducerPool.initialize_pool n connect).result = Except.error e ∧
    (KafkaProducerPool.initialize_pool n connect).created = List.range k ∧
    (KafkaProducerPool.initialize_pool n connect).closed = [] := by
  have h := initLoop_first_fail connect e k n 0 [] hk
    (fun j hj => by simpa using hok j hj) (by simpa using hfail)
  unfold KafkaProducerPool.initialize_pool
  rw [h]
  refine ⟨rfl, ?_, rfl⟩
  simp

/-- Witness for the amended C4: three-connection pool, third connection
fails. -/
theorem initialize_pool_failure_spec_witness :
    (KafkaProducerPool.initialize_pool 3
        (fun i => if i < 2 then none else some PyExc.other)).result =
      Except.error PyExc.other ∧
    (KafkaProducerPool.initialize_pool 3
        (fun i => if i < 2 then none else some PyExc.other)).created =
      List.range 2 ∧
    (KafkaProducerPool.initialize_pool 3
        (fun i => if i < 2 then none else some PyExc.other)).closed = [] := by
  exact initialize_pool_failure_spec 3 2
    (fun i => if i < 2 then none else some PyExc.other) PyExc.other
    (by omega) (fun j hj => by interval_cases j <;> rfl) rfl

/-- Releasing a list of connections appends them, in order, at the right
end of the idle deque. -/
theorem releaseMany_pool (l : List Producer) :
    ∀ ps : KafkaProducerPool,
      (ps.releaseMany l).pool = ps.pool ++ l := by
  induction l with
  | nil => intro ps; simp [KafkaProducerPool.releaseMany]
  | cons x xs ih =>
    intro ps
    show ((ps.releaseStep x).releaseMany xs).pool = ps.pool ++ (x :: xs)
    rw [ih]
    simp [KafkaProducerPool.releaseStep]

/-- `k` successive acquisitions create exactly `k - idleCount` new
connections (none while idle connections remain, one per acquisition once
the idle deque is exhausted). -/
theorem acquireMany_count (k : Nat) :
    ∀ ps : KafkaProducerPool,
      (KafkaProducerPool.acquireMany ps k).2 = k - ps.pool.length := by
  induction k with
  | zero => intro ps; simp [KafkaProducerPool.acquireMany]
  | succ k ih =>
    intro ps
    cases hp : ps.pool with
    | nil =>
      unfold KafkaProducerPool.acquireMany
      simp [KafkaProducerPool.acquireStep, hp, ih]
      omega
    | cons p rest =>
      unfold KafkaProducerPool.acquireMany
      simp [KafkaProducerPool.acquireStep, hp, ih]

/-- C8.  `acquire()` never blocks: with an idle connection available it
removes and returns the front of the deque (the oldest-released one,
since release appends at the back) without creating anything; with the
deque empty it creates a fresh transient connection; and after releasing
`N` connections into an empty pool, `N + 1` acquisitions create exactly
one new connection beyond the idle stock. -/
theorem acquire_never_blocks_spec :
    (∀ (ps : KafkaProducerPool) (p : Producer) (rest : List Producer),
        ps.pool = p :: rest →
        ps.acquireStep = (p, { ps with pool := rest }, false)) ∧
    (∀ ps : KafkaProducerPool, ps.pool = [] →
        ps.acquireStep =
          (ps.next_id, { ps with next_id := ps.next_id + 1 }, true)) ∧
    (∀ (ps : KafkaProducerPool) (l : List Producer), ps.pool = [] →
        (KafkaProducerPool.acquireMany (ps.releaseMany l)
          (l.length + 1)).2 = 1) := by
  refine ⟨?_, ?_, ?_⟩
  · rintro ⟨sz, pool, nid⟩ p rest h
    dsimp only at h
    subst h
    rfl
  · rintro ⟨sz, pool, nid⟩ h
    dsimp only at h
    subst h
    rfl
  · intro ps l h
    rw [acquireMany_count, releaseMany_pool, h]
    simp

/-- Witness for C8 at concrete pools: FIFO acquisition from `[7, 8]`,
transient creation from an empty deque, and 3 acquisitions after 2
releases creating exactly one connection. -/
theorem acquire_never_blocks_spec_witness :
    KafkaProducerPool.acquireStep
        { pool_size := 5, pool := [7, 8], next_id := 0 } =
      (7, { pool_size := 5, pool := [8], next_id := 0 }, false) ∧
    KafkaProducerPool.acquireStep
        { pool_size := 5, pool := [], next_id := 3 } =
      (3, { pool_size := 5, pool := [], next_id := 4 }, true) ∧
    (KafkaProducerPool.acquireMany
        (KafkaProducerPool.releaseMany
          { pool_size := 5, pool := [], next_id := 0 } [11, 12]) 3).2 = 1 := by
  refine ⟨acquire_never_blocks_spec.1 _ 7 [8] rfl,
    acquire_never_blocks_spec.2.1 _ rfl, ?_⟩
  exact acquire_never_blocks_spec.2.2
    { pool_size := 5, pool := [], next_id := 0 } [11, 12] rfl

/-- C9.  A connection acquired by `get_producer` is appended back to the
idle deque on every exit path of the attempt — the body is universally
quantified, so this covers bodies that raise as well as bodies that
return — hence the pool never loses a connection (the new deque is a
permutation of the old one), and a transient connection created under an
empty deque is also released into the idle set, which can therefore grow
beyond the target size. -/
theorem get_producer_always_releases :
    ∀ (ps : KafkaProducerPool) (create : Option PyExc)
      (body : Producer → Except PyExc Unit),
      (∀ (p : Producer) (rest : List Producer), ps.pool = p :: rest →
        (KafkaProducerPool.get_producer ps create body).1.pool = rest ++ [p] ∧
        (KafkaProducerPool.get_producer ps create body).1.pool.Perm ps.pool) ∧
      (ps.pool = [] → create = none →
        (KafkaProducerPool.get_producer ps create body).1.pool =
          [ps.next_id]) := by
  intro ps create body
  constructor
  · intro p rest h
    obtain ⟨sz, pool, nid⟩ := ps
    dsimp only at h
    subst h
    exact ⟨rfl, List.perm_append_singleton p rest⟩
  · intro h hc
    obtain ⟨sz, pool, nid⟩ := ps
    dsimp only at h
    subst h
    subst hc
    rfl

/-- Witness for C9 with a body that raises a `KafkaError` mid-use: the
connection is still returned (exceptional exit path), both from a stocked
deque and as a freshly created transient connection. -/
theorem get_producer_always_releases_witness :
    (KafkaProducerPool.get_producer
        { pool_size := 5, pool := [7, 8], next_id := 0 } none
        (fun _ => (Except.error PyExc.kafka : Except PyExc Unit))).1.pool =
      [8, 7] ∧
    (KafkaProducerPool.get_producer
        { pool_size := 5, pool := [], next_id := 3 } none
        (fun _ => (Except.error PyExc.kafka : Except PyExc Unit))).1.pool =
      [3] := by
  refine ⟨?_, ?_⟩
  · exact ((get_producer_always_releases _ _ _).1 7 [8] rfl).1
  · exact (get_producer_always_releases _ _ _).2 rfl rfl
